import Mathlib

/-!
# Verification of the voice-assistant utterance segmenter

Shallow embedding of `src/auto_offline_voice_assistant.py`:
the wake-word gate (`listen_for_wake_word`, lines 80-95), the
utterance-capture loop (`listen`, lines 97-127), the backends
(`query_local_llm`, lines 133-143; `execute_shell`, lines 146-153)
and the main loop (`main`, lines 156-175).

Time is modelled in whole milliseconds (`Nat`).  Transcript events are
the partial/final results the Vosk recognizer delivers to the callbacks;
the recognizer itself is external, so its outputs (the event texts and
the text of the forced `FinalResult()` at timeout) appear as inputs of
the embedded functions.
-/

namespace VoiceAssistant

/-! ## Python string primitives

`substrIn needle hay` embeds Python's `needle in hay` membership test on
strings, `pyLower` embeds `str.lower()` (the texts involved are ASCII)
and `pyStrip` embeds `str.strip()`. -/

/-- `charsStartWith p l` is true when `p` is an initial run of `l`. -/
def charsStartWith : List Char → List Char → Bool
  | [], _ => true
  | _ :: _, [] => false
  | a :: as, b :: bs => a == b && charsStartWith as bs

/-- `charsContain needle hay` : `needle` occurs contiguously inside `hay`. -/
def charsContain (needle : List Char) : List Char → Bool
  | [] => charsStartWith needle []
  | c :: rest => charsStartWith needle (c :: rest) || charsContain needle rest

/-- Python's `needle in hay` substring test. -/
def substrIn (needle hay : String) : Bool :=
  charsContain needle.data hay.data

/-- Python's `str.lower()` (ASCII case mapping). -/
def pyLower (s : String) : String :=
  ⟨s.data.map Char.toLower⟩

/-- The characters Python's `str.strip()` removes. -/
def pyIsSpace (c : Char) : Bool :=
  c == ' ' || c == '\t' || c == '\n' || c == '\r' || c == '\x0b' || c == '\x0c'

/-- Drop the leading run of whitespace characters. -/
def dropLeadingSpace : List Char → List Char
  | [] => []
  | c :: rest => if pyIsSpace c then dropLeadingSpace rest else c :: rest

/-- Python's `str.strip()`: whitespace removed from both ends. -/
def pyStrip (s : String) : String :=
  ⟨(dropLeadingSpace ((dropLeadingSpace s.data).reverse)).reverse⟩

/-! ## Configuration (CONFIG dict, lines 12-20) -/

/-- `CONFIG["silence_timeout"]`: 3 seconds, in milliseconds. -/
def silence_timeout_ms : Nat := 3000

/-- `CONFIG["wake_word"]`. -/
def wake_word : String := "hey jarvis"

/-! ## Transcript events -/

/-- A transcript event from the recognizer: `AcceptWaveform` returning
true yields a `Final` (read via `Result()`), otherwise the callback reads
a `Partial` (via `PartialResult()`). -/
inductive TranscriptEvent where
  | Partial (text : String)
  | Final (text : String)
deriving DecidableEq

/-- The text carried by an event. -/
def TranscriptEvent.text : TranscriptEvent → String
  | .Partial t => t
  | .Final t => t

/-- An event together with the wall-clock time (`time.time()`, in ms)
at which the callback processes it. -/
structure TimedEvent where
  event : TranscriptEvent
  time : Nat
deriving DecidableEq

/-! ## Wake-word gate (`listen_for_wake_word`, lines 80-95)

The loop feeds audio to the recognizer; only when `AcceptWaveform`
returns true (a `Final`) does it read `Result()`, lowercase the text and
test `CONFIG["wake_word"] in text`.  A partial result is never examined
in this loop.  Note the code lowercases the transcript text but uses the
configured wake word verbatim. -/

inductive GateState where
  | Idle
  | Triggered
deriving DecidableEq

/-- Line 92-93: `text = result.get("text", "").lower()` then
`if CONFIG["wake_word"] in text`. -/
def wakeCheck (wakeWord : String) (finalText : String) : Bool :=
  substrIn wakeWord (pyLower finalText)

/-- One iteration of the wake loop on one recognizer event.  Once the
gate has triggered the function has returned (line 95), so `Triggered`
is absorbing; in `Idle`, a partial event is not inspected at all. -/
def gateStep (wakeWord : String) (st : GateState) (e : TranscriptEvent) : GateState :=
  match st, e with
  | .Triggered, _ => .Triggered
  | .Idle, .Partial _ => .Idle
  | .Idle, .Final t => if wakeCheck wakeWord t then .Triggered else .Idle

/-- The gate run over a whole stream of recognizer events. -/
def gateRun (wakeWord : String) (events : List TranscriptEvent) : GateState :=
  events.foldl (gateStep wakeWord) .Idle

/-! ## Utterance capture (`listen`, lines 97-127)

The only mutable state of `listen` is `last_voice_time` (line 99).  The
callback (lines 101-110) reads `Result()` when a waveform is accepted
and `PartialResult()` otherwise, and in either case only refreshes
`last_voice_time` when the text is non-empty — the final texts
themselves are discarded.  The polling loop (lines 119-127) fires once
`time.time() - last_voice_time > silence_timeout`, reads
`FinalResult()`, strips it, and returns the text if non-empty, else
`None`. -/

/-- The mutable state of `listen`: `last_voice_time` only. -/
structure ListenState where
  lastVoiceTime : Nat
deriving DecidableEq

/-- The audio callback, lines 101-110: a `Final` with non-empty text or
a non-empty partial refreshes `last_voice_time` to the current time;
everything else leaves the state unchanged.  No text is stored. -/
def callbackStep (st : ListenState) (e : TimedEvent) : ListenState :=
  match e.event with
  | .Final t => if t ≠ "" then { lastVoiceTime := e.time } else st
  | .Partial t => if t ≠ "" then { lastVoiceTime := e.time } else st

/-- The callback folded over the events of one capture cycle. -/
def processEvents (start : Nat) (events : List TimedEvent) : ListenState :=
  events.foldl callbackStep { lastVoiceTime := start }

/-- Lines 121-126: the value computed when the silence timeout fires,
from the text of the recognizer's forced `FinalResult()`:
`text = result.get("text", "").strip(); return text if text else None`. -/
def finalizeResult (forcedFinal : String) : Option String :=
  let text := pyStrip forcedFinal
  if text ≠ "" then some text else none

/-- The utterance returned by one capture cycle of `listen`.  The events
drive only `last_voice_time` (see `callbackStep`); the returned value is
computed solely from the forced `FinalResult()` text, since the callback
never stores any transcript text. -/
def listenResult (start : Nat) (events : List TimedEvent) (forcedFinal : String) :
    Option String :=
  let _st := processEvents start events
  finalizeResult forcedFinal

/-- The polling loop of lines 119-127: at time `now`, if
`now - last_voice_time > silence_timeout` the loop fires and returns the
current time, otherwise it sleeps one polling interval `step` and
re-checks.  `fuel` bounds the number of iterations (the Python loop is
unbounded); `none` means the fuel ran out before the timeout fired. -/
def pollLoop (step timeout lastVoice : Nat) : Nat → Nat → Option Nat
  | 0, _ => none
  | fuel + 1, now =>
    if now - lastVoice > timeout then some now
    else pollLoop step timeout lastVoice fuel (now + step)

/-! ## Backends (`query_local_llm`, lines 133-143; `execute_shell`,
lines 146-153)

A backend invocation either is unavailable (the `shutil.which` check
fails), or runs and succeeds with some output, or runs and fails
(`subprocess.check_output` raising; the exception's message is
modelled as a string). -/

/-- Outcome of attempting to run an external backend process. -/
inductive ExecOutcome where
  | success (output : String)
  | failure (errMsg : String)
deriving DecidableEq

/-- `query_local_llm`, lines 133-143: if `ollama` is missing return the
unavailable message; otherwise return the stripped output on success, or
`f"Error: {e}"` when `check_output` raises. -/
def query_local_llm (ollamaAvailable : Bool) (exec : ExecOutcome) : String :=
  if ollamaAvailable = false then "Offline LLM not available. Install Ollama."
  else
    match exec with
    | .success out => pyStrip out
    | .failure e => "Error: " ++ e

/-- `execute_shell`, lines 146-153: if `sgpt` is missing return the
not-installed message; otherwise return the raw output on success, or
`f"Error executing sgpt: {e}"` when the process exits non-zero. -/
def execute_shell (sgptAvailable : Bool) (exec : ExecOutcome) : String :=
  if sgptAvailable = false then "ShellGPT not installed or path incorrect."
  else
    match exec with
    | .success out => out
    | .failure e => "Error executing sgpt: " ++ e

/-! ## Main loop (`main`, lines 156-175) -/

/-- What one iteration of the main loop does after `listen()` returns:
skip back to the wake-word wait (`continue`, line 162), speak a response
and loop, or speak the farewell and `break` (lines 165-167). -/
inductive LoopAction where
  | skip
  | respond (response : String)
  | halt (farewell : String)
deriving DecidableEq

/-- Whether the loop keeps running after an action. -/
inductive LoopOutcome where
  | continueLoop
  | exitLoop
deriving DecidableEq

def actionOutcome : LoopAction → LoopOutcome
  | .halt _ => .exitLoop
  | _ => .continueLoop

/-- Lines 160-172 of `main`, given the value `listen()` returned and the
two backends as functions of the prompt: `if not text: continue`; then
the exit/quit keywords break with "Goodbye!", the run/execute keywords
dispatch to `execute_shell`, anything else to `query_local_llm`. -/
def mainStep (shell llm : String → String) (utterance : Option String) : LoopAction :=
  match utterance with
  | none => .skip
  | some text =>
    if text = "" then .skip
    else if substrIn "exit" (pyLower text) || substrIn "quit" (pyLower text) then
      .halt "Goodbye!"
    else if substrIn "run" (pyLower text) || substrIn "execute" (pyLower text) then
      .respond (shell text)
    else
      .respond (llm text)

/-- One full iteration of `main` (lines 158-175), with the possibility
that opening/reading the audio stream raises.  `main` contains no
`try`/`except`, so an exception in `listen_for_wake_word()` or
`listen()` propagates out of the loop. -/
def mainIteration (wakeResult : Except String Unit)
    (listenOutcome : Except String (Option String))
    (shell llm : String → String) : Except String LoopAction :=
  match wakeResult with
  | .error e => .error e
  | .ok _ =>
    match listenOutcome with
    | .error e => .error e
    | .ok utt => .ok (mainStep shell llm utt)

/-! ## Helper lemmas -/

/-- A callback event whose text is empty leaves the state untouched. -/
theorem callbackStep_no_text (st : ListenState) (e : TimedEvent)
    (h : e.event.text = "") : callbackStep st e = st := by
  cases e with
  | mk ev time => cases ev <;> simp_all [callbackStep, TranscriptEvent.text]

/-- Folding the callback over events with no text leaves the state untouched. -/
theorem foldl_callback_no_text (st : ListenState) (events : List TimedEvent)
    (hev : ∀ e ∈ events, e.event.text = "") :
    events.foldl callbackStep st = st := by
  induction events generalizing st with
  | nil => rfl
  | cons e es ih =>
    rw [List.foldl_cons, callbackStep_no_text st e (hev e (by simp))]
    exact ih st (fun e' he' => hev e' (by simp [he']))

/-- Once the wake gate has triggered it stays triggered. -/
theorem gateStep_triggered (w : String) (e : TranscriptEvent) :
    gateStep w GateState.Triggered e = GateState.Triggered := rfl

/-- The gate loop from the triggered state never leaves it. -/
theorem gateRun_from_triggered (w : String) (events : List TranscriptEvent) :
    events.foldl (gateStep w) GateState.Triggered = GateState.Triggered := by
  induction events with
  | nil => rfl
  | cons e es ih => rw [List.foldl_cons, gateStep_triggered]; exact ih

/-- `dropLeadingSpace` yields the empty list or a list headed by a
non-whitespace character. -/
theorem dropLeadingSpace_head (l : List Char) :
    dropLeadingSpace l = [] ∨
      ∃ c rest, dropLeadingSpace l = c :: rest ∧ pyIsSpace c = false := by
  induction l with
  | nil => exact Or.inl rfl
  | cons c rest ih =>
    cases h : pyIsSpace c with
    | true => simpa [dropLeadingSpace, h] using ih
    | false => exact Or.inr ⟨c, rest, by simp [dropLeadingSpace, h], h⟩

/-- A non-empty stripped string holds at least one non-whitespace character. -/
theorem pyStrip_has_nonspace (ff : String) (h : pyStrip ff ≠ "") :
    ∃ c ∈ (pyStrip ff).data, pyIsSpace c = false := by
  rcases dropLeadingSpace_head ((dropLeadingSpace ff.data).reverse) with h0 | ⟨c, rest, heq, hc⟩
  · exact absurd (by simp [pyStrip, h0]) h
  · exact ⟨c, by simp [pyStrip, heq], hc⟩

/-! ## Claim theorems -/

/-- C1 counterexample: two non-empty `Final` events ("turn on", then
"the lights") arrive before the timeout, and the recognizer's forced
`FinalResult()` at the timeout is empty (both segments were already
consumed by `Result()` in the callback).  The claim says the cycle's
utterance is the concatenation of the two final texts in order, but the
code returns `None`: the callback discards the final texts. -/
theorem finals_are_dropped_cex :
    listenResult 0 [⟨.Final "turn on", 1000⟩, ⟨.Final "the lights", 2000⟩] "" = none ∧
    listenResult 0 [⟨.Final "turn on", 1000⟩, ⟨.Final "the lights", 2000⟩] "" ≠
      some "turn on the lights" := by
  decide

/-- C1 amended: `listen` does not accumulate final texts.  Whatever
sequence of transcript events arrives during the cycle, the returned
utterance is computed solely from the recognizer's forced
`FinalResult()` text at the timeout: its stripped text if that is
non-empty, `none` otherwise. -/
theorem utterance_is_forced_final_only (start : Nat) (events : List TimedEvent)
    (ff : String) :
    listenResult start events ff =
      (if pyStrip ff ≠ "" then some (pyStrip ff) else none) := rfl

/-- C2: the polling loop fires strictly after
`last_voice_time + silence_timeout` and at most one polling interval
later (the interval being at most 100 ms), provided polling is still
running at some instant `s` no later than `last_voice_time + timeout`
and enough iterations remain. -/
theorem silence_timeout_window (step timeout lastVoice : Nat)
    (hstep : 0 < step) (hstep100 : step ≤ 100) :
    ∀ fuel s, s ≤ lastVoice + timeout → lastVoice + timeout + 2 ≤ s + fuel →
    ∃ f, pollLoop step timeout lastVoice fuel s = some f ∧
      lastVoice + timeout < f ∧ f ≤ lastVoice + timeout + step ∧
      f ≤ lastVoice + timeout + 100 := by
  intro fuel
  induction fuel with
  | zero =>
    intro s hs hf
    exact absurd hf (by omega)
  | succ n ih =>
    intro s hs hf
    simp only [pollLoop]
    rw [if_neg (by omega)]
    by_cases hc : s + step ≤ lastVoice + timeout
    · exact ih (s + step) hc (by omega)
    · obtain ⟨m, rfl⟩ : ∃ m, n = m + 1 := ⟨n - 1, by omega⟩
      simp only [pollLoop]
      rw [if_pos (by omega)]
      exact ⟨s + step, rfl, by omega, by omega, by omega⟩

/-- C2 witness: with a 100 ms interval, a 3000 ms timeout and last
activity at 500 ms, polling alive at time 0 fires in (3500, 3600]. -/
theorem silence_timeout_window_witness :
    ∃ f, pollLoop 100 3000 500 3502 0 = some f ∧
      500 + 3000 < f ∧ f ≤ 500 + 3000 + 100 ∧ f ≤ 500 + 3000 + 100 :=
  silence_timeout_window 100 3000 500 (by decide) (by decide) 3502 0
    (by decide) (by decide)

/-- C3 counterexample: the code lowercases the transcript text but uses
the configured wake word verbatim, so with the wake word configured as
"Hey Jarvis" the finalized text "hey jarvis" does not trigger the gate,
though the claim says any casing of the configured string matches. -/
theorem wake_word_casing_cex :
    wakeCheck "Hey Jarvis" "hey jarvis" = false ∧
    gateStep "Hey Jarvis" GateState.Idle (TranscriptEvent.Final "hey jarvis") =
      GateState.Idle := by
  decide

/-- C3 amended: the gate triggers on a finalized text exactly when the
lowercased text contains the configured wake word verbatim — matching is
case-insensitive in the casing of the incoming text only, not in the
casing of the configured `wake_word` string. -/
theorem wake_match_lowered_text_only (w t : String) :
    (gateStep w GateState.Idle (TranscriptEvent.Final t) = GateState.Triggered ↔
      substrIn w (pyLower t) = true) ∧
    gateStep w GateState.Idle (TranscriptEvent.Final t) =
      (if wakeCheck w t then GateState.Triggered else GateState.Idle) := by
  refine ⟨?_, rfl⟩
  unfold gateStep wakeCheck
  split <;> simp_all

/-- C4: command classification is total over non-empty utterance text and
applies case-insensitive substring matching in strict priority order:
exit/quit beat run/execute and yield the farewell halting action,
run/execute dispatch to the shell backend, anything else to the LLM; the
loop exits exactly on the exit/quit case. -/
theorem router_priority_total (shell llm : String → String) (text : String)
    (hne : text ≠ "") :
    mainStep shell llm (some text) =
      (if substrIn "exit" (pyLower text) || substrIn "quit" (pyLower text) then
        LoopAction.halt "Goodbye!"
      else if substrIn "run" (pyLower text) || substrIn "execute" (pyLower text) then
        LoopAction.respond (shell text)
      else LoopAction.respond (llm text)) ∧
    (actionOutcome (mainStep shell llm (some text)) = LoopOutcome.exitLoop ↔
      (substrIn "exit" (pyLower text) || substrIn "quit" (pyLower text)) = true) := by
  refine ⟨by simp only [mainStep, if_neg hne], ?_⟩
  simp only [mainStep, if_neg hne]
  split
  · simp_all [actionOutcome]
  · split <;> simp_all [actionOutcome]

/-- C4 witness: "please exit now" halts with the farewell even though it
contains no other keyword casing issues; hypotheses discharged at the
concrete input. -/
theorem router_priority_total_witness :
    ("please exit now" ≠ "") ∧
    mainStep (fun s => s) (fun s => s) (some "please exit now") =
      LoopAction.halt "Goodbye!" := by
  refine ⟨by decide, ?_⟩
  rw [(router_priority_total (fun s => s) (fun s => s) "please exit now" (by decide)).1]
  decide

/-- C5: if the timeout elapses before any non-empty transcript text was
ever detected (all event texts empty, recognizer flush blank), the state
was never refreshed, the cycle returns the no-speech outcome `none`
rather than an error, and the main loop skips classification and
dispatch, returning to the wake-word wait. -/
theorem no_speech_is_noop (start : Nat) (events : List TimedEvent) (ff : String)
    (shell llm : String → String)
    (hev : ∀ e ∈ events, e.event.text = "") (hff : pyStrip ff = "") :
    processEvents start events = ⟨start⟩ ∧
    listenResult start events ff = none ∧
    mainStep shell llm (listenResult start events ff) = LoopAction.skip := by
  have h1 : listenResult start events ff = none := by
    simp [listenResult, finalizeResult, hff]
  exact ⟨foldl_callback_no_text ⟨start⟩ events hev, h1, by rw [h1]; rfl⟩

/-- C5 witness: an empty partial and a blank flush give the no-speech
no-op at the concrete input. -/
theorem no_speech_is_noop_witness :
    (∀ e ∈ [(⟨TranscriptEvent.Partial "", 100⟩ : TimedEvent)], e.event.text = "") ∧
    pyStrip "" = "" ∧
    (processEvents 0 [⟨TranscriptEvent.Partial "", 100⟩] = ⟨0⟩ ∧
     listenResult 0 [⟨TranscriptEvent.Partial "", 100⟩] "" = none ∧
     mainStep (fun s => s) (fun s => s)
       (listenResult 0 [⟨TranscriptEvent.Partial "", 100⟩] "") = LoopAction.skip) :=
  ⟨by decide, by decide,
   no_speech_is_noop 0 [⟨TranscriptEvent.Partial "", 100⟩] "" (fun s => s) (fun s => s)
     (by decide) (by decide)⟩

/-- C6 counterexample: `main` contains no `try`/`except`, so an audio
device error raised while listening for the wake word propagates out of
the loop iteration as an error — the claim that the outer loop catches
it and retries is false at this input. -/
theorem audio_error_crashes_cex :
    mainIteration (Except.error "PortAudioError: device unavailable") (Except.ok none)
      (fun s => s) (fun s => s) =
      Except.error "PortAudioError: device unavailable" := rfl

/-- C6 amended: an audio device error in either the wake-word wait or
the capture phase propagates uncaught out of the main-loop iteration
(crashing the process) instead of being caught, logged and retried. -/
theorem audio_error_propagates (e : String) (lst : Except String (Option String))
    (shell llm : String → String) :
    mainIteration (Except.error e) lst shell llm = Except.error e ∧
    mainIteration (Except.ok ()) (Except.error e) shell llm = Except.error e :=
  ⟨rfl, rfl⟩

/-- C7: every backend invocation outcome — unavailable binary, failing
execution, or success — yields a plain response string; a non-exit,
non-empty utterance always produces a `respond` action and the loop
continues, and each failure mode maps to its user-visible error
message. -/
theorem backend_failure_isolated (text : String) (avail : Bool) (exec : ExecOutcome)
    (hne : text ≠ "")
    (hexit : (substrIn "exit" (pyLower text) || substrIn "quit" (pyLower text)) = false) :
    (∃ r : String,
      mainStep (fun _ => execute_shell avail exec) (fun _ => query_local_llm avail exec)
        (some text) = LoopAction.respond r) ∧
    actionOutcome (mainStep (fun _ => execute_shell avail exec)
      (fun _ => query_local_llm avail exec) (some text)) = LoopOutcome.continueLoop ∧
    (∀ m, query_local_llm true (ExecOutcome.failure m) = "Error: " ++ m) ∧
    (∀ m, execute_shell true (ExecOutcome.failure m) = "Error executing sgpt: " ++ m) ∧
    query_local_llm false exec = "Offline LLM not available. Install Ollama." ∧
    execute_shell false exec = "ShellGPT not installed or path incorrect." := by
  have hstep : mainStep (fun _ => execute_shell avail exec)
      (fun _ => query_local_llm avail exec) (some text) =
      (if substrIn "run" (pyLower text) || substrIn "execute" (pyLower text) then
        LoopAction.respond (execute_shell avail exec)
      else LoopAction.respond (query_local_llm avail exec)) := by
    simp [mainStep, hne, hexit]
  refine ⟨?_, ?_, fun m => rfl, fun m => rfl, ?_, ?_⟩
  · rw [hstep]
    split
    · exact ⟨_, rfl⟩
    · exact ⟨_, rfl⟩
  · rw [hstep]
    split <;> rfl
  · rfl
  · rfl

/-- C7 witness: a failing shell backend on "run the backup script"
still yields a continuing loop with a response action. -/
theorem backend_failure_isolated_witness :
    ("run the backup script" ≠ "") ∧
    actionOutcome (mainStep (fun _ => execute_shell false (ExecOutcome.failure "exit status 1"))
      (fun _ => query_local_llm false (ExecOutcome.failure "exit status 1"))
      (some "run the backup script")) = LoopOutcome.continueLoop :=
  ⟨by decide,
   (backend_failure_isolated "run the backup script" false (ExecOutcome.failure "exit status 1")
     (by decide) (by decide)).2.1⟩

/-- C8: in the idle state a partial transcript event is never checked
against the wake phrase — it leaves the gate idle whatever its text —
and over any stream of events the gate ends triggered exactly when some
Final event's text passes the wake check. -/
theorem partials_never_trigger (w : String) :
    (∀ t : String, gateStep w GateState.Idle (TranscriptEvent.Partial t) = GateState.Idle) ∧
    (∀ events : List TranscriptEvent,
      gateRun w events = GateState.Triggered ↔
        ∃ t, TranscriptEvent.Final t ∈ events ∧ wakeCheck w t = true) := by
  refine ⟨fun t => rfl, fun events => ?_⟩
  induction events with
  | nil => simp [gateRun]
  | cons e es ih =>
    cases e with
    | Partial t =>
      simp only [gateRun, List.foldl_cons] at ih ⊢
      rw [show gateStep w GateState.Idle (TranscriptEvent.Partial t) = GateState.Idle
        from rfl]
      rw [ih]
      simp [List.mem_cons]
    | Final t =>
      cases h : wakeCheck w t with
      | true =>
        simp only [gateRun, List.foldl_cons, gateStep, h, if_true]
        rw [gateRun_from_triggered]
        exact iff_of_true rfl ⟨t, by simp, h⟩
      | false =>
        simp only [gateRun, List.foldl_cons] at ih ⊢
        rw [show gateStep w GateState.Idle (TranscriptEvent.Final t) = GateState.Idle
          by simp [gateStep, h]]
        rw [ih]
        constructor
        · rintro ⟨t', ht', hw⟩
          exact ⟨t', List.mem_cons_of_mem _ ht', hw⟩
        · rintro ⟨t', ht', hw⟩
          rcases List.mem_cons.mp ht' with heq | hmem
          · cases heq
            exact absurd hw (by simp [h])
          · exact ⟨t', hmem, hw⟩

/-- C9: each event-processing step of the capture callback assigns
`last_voice_time` a value no smaller than the stored one, given that the
event's processing time is no earlier than the previous update (the
stored value is an earlier reading of the same clock). -/
theorem last_activity_monotone (st : ListenState) (e : TimedEvent)
    (h : st.lastVoiceTime ≤ e.time) :
    st.lastVoiceTime ≤ (callbackStep st e).lastVoiceTime := by
  cases e with
  | mk ev time =>
    cases ev <;> simp only [callbackStep] <;> split <;> simp_all

/-- C9 witness: a final at time 200 raises the stored time 100. -/
theorem last_activity_monotone_witness :
    (ListenState.lastVoiceTime ⟨100⟩ ≤ (200 : Nat)) ∧
    ListenState.lastVoiceTime ⟨100⟩ ≤
      (callbackStep ⟨100⟩ ⟨TranscriptEvent.Final "hello", 200⟩).lastVoiceTime :=
  ⟨by decide,
   last_activity_monotone ⟨100⟩ ⟨TranscriptEvent.Final "hello", 200⟩ (by decide)⟩

/-- C10: a blank (empty or whitespace-only) forced-final text makes
`listen` return `none`, any `some` utterance it returns is non-empty and
holds a non-whitespace character, and the `none` outcome makes the main
loop skip the router entirely. -/
theorem blank_forced_final_never_routed :
    (∀ (start : Nat) (events : List TimedEvent) (ff : String), pyStrip ff = "" →
      listenResult start events ff = none) ∧
    (∀ (start : Nat) (events : List TimedEvent) (ff s : String),
      listenResult start events ff = some s →
      s ≠ "" ∧ ∃ c ∈ s.data, pyIsSpace c = false) ∧
    (∀ shell llm : String → String, mainStep shell llm none = LoopAction.skip) := by
  refine ⟨?_, ?_, fun _ _ => rfl⟩
  · intro start events ff h
    simp [listenResult, finalizeResult, h]
  · intro start events ff s h
    by_cases hff : pyStrip ff = ""
    · simp [listenResult, finalizeResult, hff] at h
    · have hs : pyStrip ff = s := by
        simpa [listenResult, finalizeResult, hff] using h
      subst hs
      exact ⟨hff, pyStrip_has_nonspace ff hff⟩

/-- C10 witness: a whitespace-only flush returns `none`; the stripped
non-blank flush " ok " returns "ok", which holds a non-space character. -/
theorem blank_forced_final_never_routed_witness :
    listenResult 0 [] "  " = none ∧
    ("ok" ≠ "" ∧ ∃ c ∈ "ok".data, pyIsSpace c = false) :=
  ⟨blank_forced_final_never_routed.1 0 [] "  " (by decide),
   blank_forced_final_never_routed.2.1 0 [] " ok " "ok" (by decide)⟩

end VoiceAssistant
